import Mathlib

/-!
Shallow embedding of the ilang type store and refinement hierarchy
(`src/src/Type.cpp` together with `include/ilang/Type.hpp`; the file
`src/lib/Type.cpp` is an earlier near-duplicate revision of the same
translation unit and is noted where it differs).

Modelling conventions:

* A `TypeHandle` (`const Type*`) is modelled as the node's index into the
  arena `storage`, in allocation order.  Pointer comparison (`std::sort`
  over handles, `std::unique`, map keys of handle vectors) is index
  comparison: we fix the deterministic refinement of the heap in which
  addresses increase with allocation order.  Under that refinement the
  `std::sort` of the `unique_ptr` arena performed by `type_result` is the
  identity permutation, so it is omitted.
* A null `TypeHandle` is `Option.none`; in particular the default member
  initializer `const Type *base = nullptr` of `struct Type` becomes
  `base := none`.
* `std::map` interning tables are association lists with exact-key lookup.
* `std::vector` move assignment (`newType->types = std::move(innerTypes)`)
  transfers the contents into the node and leaves the moved-from local
  vector empty (the behaviour of the major standard libraries).  The
  subsequent reads `innerTypes.size()` / `innerTypes[0]` in the source
  therefore act on an empty vector; the out-of-bounds `operator[]` read is
  undefined behaviour (a wild read through a null data pointer) and is
  modelled by the whole call returning `none` instead of a result.
-/

namespace Ilang

/-- `enum class StringEncoding` from `include/ilang/Type.hpp`. -/
inductive StringEncoding where
  | ascii
  | utf8
deriving DecidableEq, BEq, Repr

/-- `struct Type` from `include/ilang/Type.hpp`: base pointer (nullable),
display name `str`, mangled name, and inner-type list. -/
structure Ty where
  base : Option Nat := none
  str : String := ""
  mangled : String := ""
  types : List Nat := []
deriving DecidableEq, Repr

/-- `struct TypeData` from `include/ilang/Type.hpp`.  The fields
`partialType` and `functionType` are declared in the header but never
assigned by the `TypeData` constructor in `src/src/Type.cpp`; reading them
would be undefined, which we model by `Option Nat` fields left `none`. -/
structure TypeData where
  infinityType : Nat
  partialType : Option Nat := none
  typeType : Nat
  unitType : Nat
  stringType : Nat
  numberType : Nat
  complexType : Nat
  imaginaryType : Nat
  realType : Nat
  rationalType : Nat
  integerType : Nat
  naturalType : Nat
  booleanType : Nat
  functionType : Option Nat := none
  sizedBooleanTypes : List (Nat × Nat) := []
  sizedNaturalTypes : List (Nat × Nat) := []
  sizedIntegerTypes : List (Nat × Nat) := []
  sizedRationalTypes : List (Nat × Nat) := []
  sizedImaginaryTypes : List (Nat × Nat) := []
  sizedRealTypes : List (Nat × Nat) := []
  sizedComplexTypes : List (Nat × Nat) := []
  encodedStringTypes : List (StringEncoding × Nat) := []
  functionTypes : List (List Nat × List (Nat × Nat)) := []
  sumTypes : List (List Nat × Nat) := []
  productTypes : List (List Nat × Nat) := []
  partialTypes : List Nat := []
  storage : List Ty := []
deriving DecidableEq, Repr

/-- Exact-key lookup in a `std::map` modelled as an association list. -/
def assocFind [BEq k] (m : List (k × Nat)) (key : k) : Option Nat :=
  (m.find? (fun p => p.1 == key)).map (fun p => p.2)

/-- `std::map::try_emplace`: insert `(key, v)` only when `key` is absent. -/
def tryEmplace [BEq k] (m : List (k × Nat)) (key : k) (v : Nat) : List (k × Nat) :=
  if (m.find? (fun p => p.1 == key)).isSome then m else m ++ [(key, v)]

/-- Pointer sort of a handle vector (`std::sort(begin, end)` on
`TypeHandle`s): insertion of one index into a sorted list. -/
def insertHandle (x : Nat) : List Nat → List Nat
  | [] => [x]
  | y :: ys => if x ≤ y then x :: y :: ys else y :: insertHandle x ys

/-- `std::sort` on a vector of handles, under the allocation-order address
refinement: sort the indices ascending. -/
def sortHandles (l : List Nat) : List Nat :=
  l.foldr insertHandle []

/-- `std::unique` + `erase`: drop adjacent duplicates. -/
def uniqueAdjacent : List Nat → List Nat
  | [] => []
  | [x] => [x]
  | x :: y :: r => if x = y then uniqueAdjacent (y :: r) else x :: uniqueAdjacent (y :: r)

/-- The `TypeData::TypeData()` constructor of `src/src/Type.cpp`: the
bootstrapped store.  Nodes are allocated in source order, indices 0..11;
the Infinity node is its own base, every other root hangs off the chain
exactly as in the constructor body. -/
def TypeData.init : TypeData :=
  { infinityType := 0
    typeType := 1
    unitType := 2
    stringType := 3
    numberType := 4
    complexType := 5
    imaginaryType := 6
    realType := 7
    rationalType := 8
    integerType := 9
    naturalType := 10
    booleanType := 11
    storage :=
      [ { base := some 0, str := "Infinity", mangled := "??" }
      , { base := some 0, str := "Type", mangled := "t?" }
      , { base := some 0, str := "Unit", mangled := "u0" }
      , { base := some 0, str := "String", mangled := "s?" }
      , { base := some 0, str := "Number", mangled := "w?" }
      , { base := some 4, str := "Complex", mangled := "c?" }
      , { base := some 5, str := "Imaginary", mangled := "i?" }
      , { base := some 5, str := "Real", mangled := "r?" }
      , { base := some 7, str := "Rational", mangled := "q?" }
      , { base := some 8, str := "Integer", mangled := "z?" }
      , { base := some 9, str := "Natural", mangled := "n?" }
      , { base := some 10, str := "Boolean", mangled := "b?" } ] }

/-- `findInfinityType` from `src/src/Type.cpp`. -/
def findInfinityType (data : TypeData) : Nat :=
  data.infinityType

/-- `createSizedNumberType` from `src/src/Type.cpp`: width 0 returns the
family base handle; otherwise a fresh node `name+bits` / `mangled+bits`
is appended to the arena.  Note: the new node is NOT inserted into any
sized interning table (the source has no such insert). -/
def createSizedNumberType (data : TypeData) (base : Nat)
    (name mangledName : String) (numBits : Nat) : TypeData × Nat :=
  if numBits = 0 then (data, base)
  else
    let bitsStr := toString numBits
    let node : Ty := { base := some base, str := name ++ bitsStr, mangled := mangledName ++ bitsStr }
    ({ data with storage := data.storage ++ [node] }, data.storage.length)

/-- `createNaturalType` from `src/src/Type.cpp`. -/
def createNaturalType (data : TypeData) (numBits : Nat) : TypeData × Nat :=
  createSizedNumberType data data.naturalType "Natural" "n" numBits

/-- `createIntegerType` from `src/src/Type.cpp` (base `integerType`,
mangled tag `"z"`; the revision in `src/lib/Type.cpp` instead used base
`naturalType` and tag `"i"`). -/
def createIntegerType (data : TypeData) (numBits : Nat) : TypeData × Nat :=
  createSizedNumberType data data.integerType "Integer" "z" numBits

/-- `createRationalType` from `src/src/Type.cpp`. -/
def createRationalType (data : TypeData) (numBits : Nat) : TypeData × Nat :=
  createSizedNumberType data data.rationalType "Rational" "q" numBits

/-- `createRealType` from `src/src/Type.cpp`. -/
def createRealType (data : TypeData) (numBits : Nat) : TypeData × Nat :=
  createSizedNumberType data data.realType "Real" "r" numBits

/-- `createImaginaryType` from `src/src/Type.cpp`. -/
def createImaginaryType (data : TypeData) (numBits : Nat) : TypeData × Nat :=
  createSizedNumberType data data.imaginaryType "Imaginary" "i" numBits

/-- `createComplexType` from `src/src/Type.cpp`. -/
def createComplexType (data : TypeData) (numBits : Nat) : TypeData × Nat :=
  createSizedNumberType data data.complexType "Complex" "c" numBits

/-- `findInnerType` specialised to the sized-number maps, i.e.
`findInnerNumberType` from `src/src/Type.cpp`: a zero width returns the
family base, a nonzero width is an exact table lookup returning the
entry or the null handle. -/
def findInnerNumberType (base : Nat) (cont : List (Nat × Nat)) (numBits : Nat) : Option Nat :=
  if numBits = 0 then some base else assocFind cont numBits

/-- `findNaturalType` from `src/src/Type.cpp`. -/
def findNaturalType (data : TypeData) (numBits : Nat) : Option Nat :=
  findInnerNumberType data.naturalType data.sizedNaturalTypes numBits

/-- `findIntegerType` from `src/src/Type.cpp`. -/
def findIntegerType (data : TypeData) (numBits : Nat) : Option Nat :=
  findInnerNumberType data.integerType data.sizedIntegerTypes numBits

/-- `findRationalType` from `src/src/Type.cpp`. -/
def findRationalType (data : TypeData) (numBits : Nat) : Option Nat :=
  findInnerNumberType data.rationalType data.sizedRationalTypes numBits

/-- `findRealType` from `src/src/Type.cpp`. -/
def findRealType (data : TypeData) (numBits : Nat) : Option Nat :=
  findInnerNumberType data.realType data.sizedRealTypes numBits

/-- `findImaginaryType` from `src/src/Type.cpp`. -/
def findImaginaryType (data : TypeData) (numBits : Nat) : Option Nat :=
  findInnerNumberType data.imaginaryType data.sizedImaginaryTypes numBits

/-- `findComplexType` from `src/src/Type.cpp`. -/
def findComplexType (data : TypeData) (numBits : Nat) : Option Nat :=
  findInnerNumberType data.complexType data.sizedComplexTypes numBits

/-- `getInnerNumberType` from `src/src/Type.cpp`, specialised at a
creation function: find, and on a miss call `create` (which appends to
the arena but never fills the interning table).  `type_result`'s
`std::sort` of the arena is the identity under the address refinement. -/
def getInnerNumberType (data : TypeData) (base : Nat) (cont : List (Nat × Nat))
    (numBits : Nat) (create : TypeData → Nat → TypeData × Nat) : TypeData × Nat :=
  match findInnerNumberType base cont numBits with
  | some res => (data, res)
  | none => create data numBits

/-- `getNaturalType` from `src/src/Type.cpp`. -/
def getNaturalType (data : TypeData) (numBits : Nat) : TypeData × Nat :=
  getInnerNumberType data data.naturalType data.sizedNaturalTypes numBits createNaturalType

/-- `getIntegerType` from `src/src/Type.cpp`. -/
def getIntegerType (data : TypeData) (numBits : Nat) : TypeData × Nat :=
  getInnerNumberType data data.integerType data.sizedIntegerTypes numBits createIntegerType

/-- `getPartialType` from `src/src/Type.cpp`: the id string is the length
of `data.partialTypes`, the node is named `"Unique"+id` / `"_"+id`, its
`base` is left at the default `nullptr`, and — exactly as in the source —
nothing is ever appended to `data.partialTypes`. -/
def getPartialType (data : TypeData) : TypeData × Nat :=
  let id := toString data.partialTypes.length
  let node : Ty := { str := "Unique" ++ id, mangled := "_" ++ id }
  ({ data with storage := data.storage ++ [node] }, data.storage.length)

/-- Modelled from the spec: `findPartialType` is declared in
`include/ilang/Type.hpp` (line 168) but has no definition anywhere in the
sources.  Spec §4.1: "Lookup-by-id retrieves a previously created
placeholder by its index; out-of-range id is a signalled miss", the log
being the sequential `partialTypes` vector of the store (§3). -/
def findPartialType (data : TypeData) (id : Nat) : Option Nat :=
  data.partialTypes.get? id

/-- `findSumTypeInner` from `src/src/Type.cpp`: exact lookup of the
sorted, deduplicated member list in the sum interning map. -/
def findSumTypeInner (data : TypeData) (uniqueSortedInnerTypes : List Nat) : Option Nat :=
  assocFind data.sumTypes uniqueSortedInnerTypes

/-- `findSumType` from `src/src/Type.cpp`: pointer-sort and deduplicate
the member list, then look it up. -/
def findSumType (data : TypeData) (innerTypes : List Nat) : Option Nat :=
  findSumTypeInner data (uniqueAdjacent (sortHandles innerTypes))

/-- `findProductType` from `src/src/Type.cpp`: exact lookup of the member
list in caller order. -/
def findProductType (data : TypeData) (innerTypes : List Nat) : Option Nat :=
  assocFind data.productTypes innerTypes

/-- The composite-name computation of `getSumType` / `getProductType` in
`src/src/Type.cpp`: mangled `tag + size + member mangled names`, display
names joined by `sep`, both read from the member vector that the source
passes — which at that point is the moved-from vector.  Reading
`members[0]` of an empty vector is out of bounds, hence `none`. -/
def buildCompositeNames (data : TypeData) (tag sep : String) (members : List Nat) :
    Option (String × String) :=
  match members with
  | [] => none
  | i0 :: rest =>
    (data.storage.get? i0).bind (fun t0 =>
      let start : String × String :=
        (tag ++ toString (rest.length + 1) ++ t0.mangled, t0.str)
      rest.foldl
        (fun acc i =>
          acc.bind (fun p =>
            (data.storage.get? i).map (fun t =>
              (p.1 ++ t.mangled, p.2 ++ sep ++ t.str))))
        (some start))

/-- `getSumType` from `src/src/Type.cpp`.  After the interning miss the
source executes `newType->types = std::move(innerTypes)` and only then
builds the names from `innerTypes` — the moved-from, now empty, vector —
so the `innerTypes[0]` read is out of bounds and the call never returns a
handle (modelled as `none`).  The would-be success path is translated
anyway, reading from the moved-from vector exactly as the source does. -/
def getSumType (data : TypeData) (innerTypes : List Nat) : Option (TypeData × Nat) :=
  let inner := uniqueAdjacent (sortHandles innerTypes)
  match findSumTypeInner data inner with
  | some res => some (data, res)
  | none =>
    let newIdx := data.storage.length
    let movedFrom : List Nat := []
    match buildCompositeNames data "u" " | " movedFrom with
    | none => none
    | some names =>
      let node : Ty :=
        { base := some (findInfinityType data), str := names.2, mangled := names.1, types := inner }
      some ({ data with
                storage := data.storage ++ [node]
                sumTypes := tryEmplace data.sumTypes inner newIdx }, newIdx)

/-- `getProductType` from `src/src/Type.cpp`.  The arity guard
`if(innerTypes.size() < 2){ /* TODO: throw TypeError */ }` has an empty
body and signals nothing; execution falls through to the lookup and the
creation path, which has the same use-after-move out-of-bounds read as
`getSumType`. -/
def getProductType (data : TypeData) (innerTypes : List Nat) : Option (TypeData × Nat) :=
  match findProductType data innerTypes with
  | some res => some (data, res)
  | none =>
    let newIdx := data.storage.length
    let movedFrom : List Nat := []
    match buildCompositeNames data "p" " * " movedFrom with
    | none => none
    | some names =>
      let node : Ty :=
        { base := some (findInfinityType data), str := names.2, mangled := names.1, types := innerTypes }
      some ({ data with
                storage := data.storage ++ [node]
                productTypes := tryEmplace data.productTypes innerTypes newIdx }, newIdx)

/-- `type->mangled[0]` on a `std::string`: the first byte, `'\0'` when the
string is empty (`operator[]` at `size()` on a const string). -/
def strHead (s : String) : Char :=
  s.data.headD (Char.ofNat 0)

/-- `isInfinityType` from `src/src/Type.cpp`. -/
def isInfinityType (t : Ty) : Bool :=
  t.mangled == "??"

/-- `isTypeType` from `src/src/Type.cpp`. -/
def isTypeType (t : Ty) : Bool :=
  t.mangled == "t?"

/-- `isUnitType` from `src/src/Type.cpp`. -/
def isUnitType (t : Ty) : Bool :=
  t.mangled == "u0"

/-- `isStringType` from `src/src/Type.cpp`. -/
def isStringType (t : Ty) : Bool :=
  strHead t.mangled == 's'

/-- `isNaturalType` from `src/src/Type.cpp`. -/
def isNaturalType (t : Ty) : Bool :=
  strHead t.mangled == 'n'

/-- `isIntegerType` from `src/src/Type.cpp`. -/
def isIntegerType (t : Ty) : Bool :=
  strHead t.mangled == 'z'

/-- `isRationalType` from `src/src/Type.cpp`. -/
def isRationalType (t : Ty) : Bool :=
  strHead t.mangled == 'q'

/-- `isRealType` from `src/src/Type.cpp`. -/
def isRealType (t : Ty) : Bool :=
  strHead t.mangled == 'r'

/-- `isImaginaryType` from `src/src/Type.cpp`. -/
def isImaginaryType (t : Ty) : Bool :=
  strHead t.mangled == 'i'

/-- `isComplexType` from `src/src/Type.cpp`. -/
def isComplexType (t : Ty) : Bool :=
  strHead t.mangled == 'c'

/-- `isNumberType` from `src/src/Type.cpp`. -/
def isNumberType (t : Ty) : Bool :=
  strHead t.mangled == 'w'

/-- `isFunctionType` from `src/src/Type.cpp`. -/
def isFunctionType (t : Ty) : Bool :=
  strHead t.mangled == 'f'

/-- `isPartialType` from `src/src/Type.cpp`. -/
def isPartialType (t : Ty) : Bool :=
  strHead t.mangled == '_'

/-- `std::string` `operator<`: lexicographic byte comparison (all names
here are ASCII, so character comparison coincides with byte order). -/
def strLtChars : List Char → List Char → Bool
  | [], [] => false
  | [], _ :: _ => true
  | _ :: _, [] => false
  | a :: as, b :: bs =>
    if a.toNat < b.toNat then true
    else if b.toNat < a.toNat then false
    else strLtChars as bs

/-- `lhs < rhs` on the name strings. -/
def strLt (s t : String) : Bool :=
  strLtChars s.data t.data

/-- Insertion step of the name sort used by `getSortedTypes`. -/
def insertByKey (key : Ty → String) (x : Nat × Ty) :
    List (Nat × Ty) → List (Nat × Ty)
  | [] => [x]
  | y :: ys =>
    if strLt (key x.2) (key y.2) then x :: y :: ys else y :: insertByKey key x ys

/-- `getSortedTypes` from `src/src/Type.cpp`: every handle of the arena,
sorted by the given name key. -/
def getSortedTypes (data : TypeData) (key : Ty → String) : List (Nat × Ty) :=
  data.storage.enum.foldr (insertByKey key) []

/-- The shared body of `findTypeByString` / `findTypeByMangled` in
`src/src/Type.cpp`: sort all handles by the key, then `std::lower_bound`
— on a sorted sequence, the first element whose key is not less than the
query — returning that element when one exists and the null handle only
when the query is greater than every key.  Note the source performs no
equality check on the element found. -/
def findTypeByKey (data : TypeData) (key : Ty → String) (q : String) : Option Nat :=
  let types := getSortedTypes data key
  (types.find? (fun p => ! strLt (key p.2) q)).map (fun p => p.1)

/-- `findTypeByString` from `src/src/Type.cpp`. -/
def findTypeByString (data : TypeData) (q : String) : Option Nat :=
  findTypeByKey data (fun t => t.str) q

/-- `findTypeByMangled` from `src/src/Type.cpp`. -/
def findTypeByMangled (data : TypeData) (q : String) : Option Nat :=
  findTypeByKey data (fun t => t.mangled) q

/-- The `base` link of the node at index `i`, `none` for a dangling index
or a null `base` pointer. -/
def baseOf (data : TypeData) (i : Nat) : Option Nat :=
  (data.storage.get? i).bind (fun t => t.base)

/-- Fuel-bounded ancestry walk: does following `base` from `i` reach the
self-looping Top sentinel within `fuel` steps? -/
def reachesTopIn (data : TypeData) : Nat → Nat → Bool
  | 0, _ => false
  | fuel + 1, i =>
    match baseOf data i with
    | none => false
    | some b => if b = i then true else reachesTopIn data fuel b

/-- Fuel-bounded ancestry test: does the `base` chain from `i` pass
through `target` (stopping at the Top self-loop)? -/
def hasAncestorIn (data : TypeData) : Nat → Nat → Nat → Bool
  | 0, i, target => i == target
  | fuel + 1, i, target =>
    if i == target then true
    else
      match baseOf data i with
      | none => false
      | some b => if b = i then false else hasAncestorIn data fuel b target

/-- The predicate value of `p` at arena index `i` (false off the arena). -/
def predAt (data : TypeData) (p : Ty → Bool) (i : Nat) : Bool :=
  ((data.storage.get? i).map p).getD false

end Ilang

namespace Ilang

/-- C1: evaluation at the failing input.  On the bootstrapped store with the
two distinct members String (index 3) and Unit (index 2), `getSumType`
never produces the node the claim describes: after the interning miss the
source moves the member vector into the node and then builds both names
from the moved-from (empty) vector, reading `innerTypes[0]` out of bounds,
so the call yields no handle at all (and `findSumType` confirms nothing
was interned beforehand). -/
theorem getSumType_fresh_members_no_result :
    getSumType TypeData.init [3, 2] = none ∧ findSumType TypeData.init [3, 2] = none := by
  decide

/-- C2: evaluation at the failing input.  Called with the member list
`[Type, Unit]` and its permutation `[Unit, Type]` on the bootstrapped
store, `getSumType` returns no handle either time (the creation path
reads the moved-from member vector out of bounds), so the two calls do
not return identical handles — they return none. -/
theorem getSumType_permutations_no_handle :
    getSumType TypeData.init [1, 2] = none ∧ getSumType TypeData.init [2, 1] = none := by
  decide

/-- C3: evaluation at the failing inputs.  `getProductType` with the empty
list and with the single member Unit signals no InvalidArity (the arity
guard in the source has an empty body); execution falls through to the
creation path, which appends a node and then performs the out-of-bounds
read of the moved-from member vector, so neither call returns a
recoverable error or a handle. -/
theorem getProductType_small_arity_not_signalled :
    getProductType TypeData.init [] = none ∧ getProductType TypeData.init [2] = none := by
  decide

/-- C4: evaluation at the failing input.  Two `getPartialType` calls on
the bootstrapped store yield the distinct handles 12 and 13, but the
second node is named `"_0"` (not `"_1"`) because `data.partialTypes` is
never appended to, and `findPartialType` misses at every index since the
partial log stays empty. -/
theorem getPartialType_names_and_lookup :
    (getPartialType TypeData.init).2 = 12 ∧
    (getPartialType (getPartialType TypeData.init).1).2 = 13 ∧
    ((getPartialType (getPartialType TypeData.init).1).1.storage.get? 13).map
      (fun t => t.mangled) = some "_0" ∧
    (getPartialType (getPartialType TypeData.init).1).1.partialTypes = [] ∧
    findPartialType (getPartialType (getPartialType TypeData.init).1).1 0 = none ∧
    findPartialType (getPartialType (getPartialType TypeData.init).1).1 1 = none := by
  decide

/-- C5: evaluation at the failing input.  After two `getPartialType`
calls the live nodes at the distinct arena slots 12 and 13 share the
canonical name `"_0"`, so the mangled field is not injective over the
arena of this reachable store. -/
theorem canonicalName_not_injective_after_two_partials :
    (12 : Nat) ≠ 13 ∧
    ((getPartialType (getPartialType TypeData.init).1).1.storage.get? 12).map
      (fun t => t.mangled) = some "_0" ∧
    ((getPartialType (getPartialType TypeData.init).1).1.storage.get? 13).map
      (fun t => t.mangled) = some "_0" := by
  decide

/-- C6: evaluation at the failing input.  `getIntegerType` at width 0
returns the Integer root with the store unchanged, and at width 32
creates node 12 with base Integer and mangled `"z32"` — but the sized
interning table is never filled, so repeating the width-32 call on the
resulting store creates a second, different node 13 instead of returning
the identical handle. -/
theorem getIntegerType_repeat_not_identical :
    (getIntegerType TypeData.init 0).2 = TypeData.init.integerType ∧
    (getIntegerType TypeData.init 0).1 = TypeData.init ∧
    (getIntegerType TypeData.init 32).2 = 12 ∧
    ((getIntegerType TypeData.init 32).1.storage.get? 12).map (fun t => t.mangled) = some "z32" ∧
    ((getIntegerType TypeData.init 32).1.storage.get? 12).map (fun t => t.base) =
      some (some TypeData.init.integerType) ∧
    (getIntegerType TypeData.init 32).1.sizedIntegerTypes = [] ∧
    (getIntegerType (getIntegerType TypeData.init 32).1 32).2 = 13 := by
  decide

/-- C7, counterexample: on the bootstrapped store the Natural root
(index 10) refutes the claim — its base-ancestry chain reaches the
Integer root handle recorded in the store (`natural.base = integer`),
yet `isIntegerType` returns false on it, because the predicate inspects
the first character of the canonical name (`'n' ≠ 'z'`) rather than
walking the ancestry. -/
theorem isIntegerType_not_ancestry_cex :
    ¬ ((predAt TypeData.init isIntegerType TypeData.init.naturalType = true) ↔
       (hasAncestorIn TypeData.init 12 TypeData.init.naturalType
          TypeData.init.integerType = true)) := by
  decide

/-- C7, amended: each per-family predicate classifies by inspecting the
canonical name — the first character against the family tag (the whole
string for Unit) — not by an ancestry walk.  Consequently, on the store
obtained by `getIntegerType(s0, 32)`, `isIntegerType` holds exactly of
the Integer root (9) and the sized node `z32` (12); `isNaturalType`,
`isUnitType`, `isStringType`, `isNumberType` hold exactly of their root
nodes; `isFunctionType` and `isPartialType` hold nowhere; and the
Natural root, although its base chain reaches the Integer root, is not
classified as an Integer. -/
theorem family_predicates_inspect_mangled :
    (∀ t : Ty,
        isIntegerType t = (strHead t.mangled == 'z') ∧
        isNaturalType t = (strHead t.mangled == 'n') ∧
        isNumberType t = (strHead t.mangled == 'w') ∧
        isStringType t = (strHead t.mangled == 's') ∧
        isFunctionType t = (strHead t.mangled == 'f') ∧
        isPartialType t = (strHead t.mangled == '_') ∧
        isUnitType t = (t.mangled == "u0")) ∧
    ((List.range 13).all (fun i =>
        (predAt (getIntegerType TypeData.init 32).1 isIntegerType i ==
          (decide (i = 9) || decide (i = 12))) &&
        (predAt (getIntegerType TypeData.init 32).1 isNaturalType i == decide (i = 10)) &&
        (predAt (getIntegerType TypeData.init 32).1 isUnitType i == decide (i = 2)) &&
        (predAt (getIntegerType TypeData.init 32).1 isStringType i == decide (i = 3)) &&
        (predAt (getIntegerType TypeData.init 32).1 isNumberType i == decide (i = 4)) &&
        (predAt (getIntegerType TypeData.init 32).1 isFunctionType i == false) &&
        (predAt (getIntegerType TypeData.init 32).1 isPartialType i == false)) = true) ∧
    hasAncestorIn (getIntegerType TypeData.init 32).1 12 10 9 = true ∧
    predAt (getIntegerType TypeData.init 32).1 isIntegerType 10 = false :=
  ⟨fun t => ⟨rfl, rfl, rfl, rfl, rfl, rfl, rfl⟩, by decide, by decide, by decide⟩

/-- C8: evaluation at the failing input.  The node created by
`getPartialType` has a null `base` (the source never assigns it), so the
ancestry walk from it terminates at a null pointer and never reaches the
Top sentinel; the twelve bootstrapped roots, in contrast, all reach Top
within 7 base steps. -/
theorem partial_base_null_never_reaches_top :
    ((getPartialType TypeData.init).1.storage.get? 12).map (fun t => t.base) = some none ∧
    reachesTopIn (getPartialType TypeData.init).1 20 12 = false ∧
    ((List.range 12).all (fun i => reachesTopIn (getPartialType TypeData.init).1 8 i)) = true := by
  decide

/-- C9: evaluation at the failing input.  No node of the bootstrapped
store is mangled `"a"`, yet `findTypeByMangled` returns node 11 (the
Boolean root, mangled `"b?"`): the source's `lower_bound` yields the
first node whose name is not less than the query and the result is
returned without any equality check, so a miss is signalled only when
the query exceeds every name.  Exact queries such as `"z?"` do round-trip
to their node. -/
theorem findTypeByMangled_returns_nonmatching_node :
    findTypeByMangled TypeData.init "a" = some 11 ∧
    (TypeData.init.storage.all (fun t => !(t.mangled == "a"))) = true ∧
    ((TypeData.init.storage.get? 11).map (fun t => t.mangled)) = some "b?" ∧
    findTypeByMangled TypeData.init "z?" = some 9 := by
  decide

/-- C10: for every store and nonzero width absent from the sized table of
each numeric family, the pure `find<Family>Type` query returns the
null-handle miss — it never falls back to the family root — while the
width-0 query returns exactly the family's root handle. -/
theorem find_sized_numeric_zero_and_miss (data : TypeData) (w : Nat) (hw : w ≠ 0)
    (hn : assocFind data.sizedNaturalTypes w = none)
    (hz : assocFind data.sizedIntegerTypes w = none)
    (hq : assocFind data.sizedRationalTypes w = none)
    (hr : assocFind data.sizedRealTypes w = none)
    (hi : assocFind data.sizedImaginaryTypes w = none)
    (hc : assocFind data.sizedComplexTypes w = none) :
    findNaturalType data w = none ∧ findIntegerType data w = none ∧
    findRationalType data w = none ∧ findRealType data w = none ∧
    findImaginaryType data w = none ∧ findComplexType data w = none ∧
    findNaturalType data 0 = some data.naturalType ∧
    findIntegerType data 0 = some data.integerType ∧
    findRationalType data 0 = some data.rationalType ∧
    findRealType data 0 = some data.realType ∧
    findImaginaryType data 0 = some data.imaginaryType ∧
    findComplexType data 0 = some data.complexType := by
  refine ⟨?_, ?_, ?_, ?_, ?_, ?_, ?_, ?_, ?_, ?_, ?_, ?_⟩ <;>
    simp [findNaturalType, findIntegerType, findRationalType, findRealType,
          findImaginaryType, findComplexType, findInnerNumberType,
          hw, hn, hz, hq, hr, hi, hc]

/-- C10, witness: the theorem applied to the bootstrapped store at
width 32, whose sized tables are all empty. -/
theorem find_sized_numeric_zero_and_miss_witness :
    (32 : Nat) ≠ 0 ∧
    (findNaturalType TypeData.init 32 = none ∧ findIntegerType TypeData.init 32 = none ∧
     findRationalType TypeData.init 32 = none ∧ findRealType TypeData.init 32 = none ∧
     findImaginaryType TypeData.init 32 = none ∧ findComplexType TypeData.init 32 = none ∧
     findNaturalType TypeData.init 0 = some TypeData.init.naturalType ∧
     findIntegerType TypeData.init 0 = some TypeData.init.integerType ∧
     findRationalType TypeData.init 0 = some TypeData.init.rationalType ∧
     findRealType TypeData.init 0 = some TypeData.init.realType ∧
     findImaginaryType TypeData.init 0 = some TypeData.init.imaginaryType ∧
     findComplexType TypeData.init 0 = some TypeData.init.complexType) :=
  ⟨by decide,
   find_sized_numeric_zero_and_miss TypeData.init 32 (by decide) rfl rfl rfl rfl rfl rfl⟩

end Ilang
